import Mathlib

/-!
Verification development for the MySQL batching sink
(`src/mysql_sink/main.py`, class `MySQLSink`).

The Python source is shallowly embedded: the dynamic values carried in
Kafka records become a tagged union `Value`, records become ordered
association lists (the Python `dict` preserves insertion order), the
database is abstracted as an `Env` of outcomes for each I/O operation,
and the sink object's mutable fields (`table_name`, `columns`) become an
explicit `SinkState` threaded through the functions.  Side effects
(prints, the executed SQL statements, `time.sleep` calls) are recorded
in the returned structures so theorems can speak about them.
-/

namespace MySQLSink

/-- A Python scalar value as it arrives in a record.  `vfloat` carries no
payload: the numeric value of a float is never inspected by the sink's
type inference or routing, only its runtime type is. `vother` stands for
any other Python object (list, dict, ...), which the inference maps to a
string column. -/
inductive Value where
  | vnull
  | vbool (b : Bool)
  | vint (n : Int)
  | vfloat
  | vstr (s : String)
  | vother
  deriving DecidableEq, Repr

/-- A record is a Python `dict` from column name to value: an ordered
association list (Python dicts preserve insertion order and have
pairwise-distinct keys). -/
abbrev Record := List (String × Value)

/-- The keys of a record in insertion order (`sample_data.keys()`). -/
def recordKeys (r : Record) : List String := r.map Prod.fst

/-- Python `record.get(k)` / `record[k]`: the value bound to `k`, if any. -/
def dictGet (r : Record) (k : String) : Option Value :=
  (r.find? (fun p => p.fst == k)).map Prod.snd

/-- Python `isinstance(value, (int, float))`.  NOTE: in Python `bool` is a
subclass of `int`, so boolean values satisfy this check. -/
def isinstanceIntOrFloat : Value → Bool
  | .vbool _ => true
  | .vint _ => true
  | .vfloat => true
  | _ => false

/-- Python `isinstance(value, int)`; again `bool` is a subclass of `int`. -/
def isinstanceInt : Value → Bool
  | .vbool _ => true
  | .vint _ => true
  | _ => false

/-- Python `isinstance(value, bool)`. -/
def isinstanceBool : Value → Bool
  | .vbool _ => true
  | _ => false

/-- Check that `needle` occurs as a contiguous run inside the second
list. -/
def containsRun (needle : List Char) : List Char → Bool
  | [] => needle.isEmpty
  | c :: rest => needle.isPrefixOf (c :: rest) || containsRun needle rest

/-- Substring test, Python's `needle in hay`. -/
def strContains (hay needle : String) : Bool :=
  containsRun needle.data hay.data

/-- Lowercase one character, as Python's `str.lower` does for the ASCII
range (the keywords being matched are all ASCII). -/
def lowerChar (c : Char) : Char :=
  if 'A' ≤ c ∧ c ≤ 'Z' then Char.ofNat (c.toNat + 32) else c

/-- Python's `col.lower()`. -/
def strLower (s : String) : String :=
  ⟨s.data.map lowerChar⟩

/-- Python's `any(word in col.lower() for word in ['time', 'date',
'timestamp'])`. -/
def containsTimeWord (col : String) : Bool :=
  ["time", "date", "timestamp"].any (fun w => strContains (strLower col) w)

/-! ### The strptime model

`datetime.datetime.strptime(value, '%Y-%m-%d %H:%M:%S.%f')` is embedded
following the regex CPython's `_strptime` compiles for this format
(checked against CPython 3.11):

    (?P<Y>\d\d\d\d)-(?P<m>1[0-2]|0[1-9]|[1-9])
    -(?P<d>3[0-1]|[1-2]\d|0[1-9]|[1-9]| [1-9])\s+
    (?P<H>2[0-3]|[0-1]\d|\d):(?P<M>[0-5]\d|\d)
    :(?P<S>6[0-1]|[0-5]\d|\d)\.(?P<f>[0-9]{1,6})

anchored at the start and required to consume the whole string
("unconverted data remains" otherwise).  `\d` matches any Unicode
decimal digit (category Nd) and the matched groups are converted with
`int`, which reads each Nd digit at its decimal value; bracketed classes
such as `[0-5]` or `[1-9]` are ASCII-only; the single space of the
format is compiled to `\s+`, one or more Unicode whitespace characters;
`%d` has an extra space-padded alternative, a literal ASCII space
followed by an ASCII nonzero digit.  Each group's alternatives are tried
in the order shown; committing to a longer alternative never needs
cross-group backtracking here, because every character a shorter
alternative would leave behind is a digit, and what follows each group
(a literal `-`, `:`, `.` or `\s+`) never matches a digit.  The parsed
fields are finally validated by the `datetime` constructor: year ≥ 1,
day at most the length of the month, second ≤ 59 (the regex tolerates
leap seconds 60–61 but the constructor rejects them).  Any failure
raises `ValueError`, which the source catches. -/

/-- Numeric value of an ASCII decimal digit character. -/
def digitVal (c : Char) : Nat := c.toNat - '0'.toNat

/-- First codepoints of the contiguous ten-character runs making up the
Unicode decimal digits (category Nd, as matched by CPython's `\d`); each
run holds the digits 0 through 9 of one script, in order. -/
def ndStarts : List Nat :=
  [0x30, 0x660, 0x6F0, 0x7C0, 0x966, 0x9E6, 0xA66, 0xAE6, 0xB66, 0xBE6,
   0xC66, 0xCE6, 0xD66, 0xDE6, 0xE50, 0xED0, 0xF20, 0x1040, 0x1090, 0x17E0,
   0x1810, 0x1946, 0x19D0, 0x1A80, 0x1A90, 0x1B50, 0x1BB0, 0x1C40, 0x1C50, 0xA620,
   0xA8D0, 0xA900, 0xA9D0, 0xA9F0, 0xAA50, 0xABF0, 0xFF10, 0x104A0, 0x10D30, 0x11066,
   0x110F0, 0x11136, 0x111D0, 0x112F0, 0x11450, 0x114D0, 0x11650, 0x116C0, 0x11730, 0x118E0,
   0x11950, 0x11C50, 0x11D50, 0x11DA0, 0x16A60, 0x16AC0, 0x16B50, 0x1D7CE, 0x1D7D8, 0x1D7E2,
   0x1D7EC, 0x1D7F6, 0x1E140, 0x1E2F0, 0x1E950, 0x1FBF0]

/-- CPython's `\d` on a str pattern: any Unicode decimal digit. -/
def isUniDigit (c : Char) : Bool :=
  ndStarts.any (fun s => decide (s ≤ c.toNat) && decide (c.toNat ≤ s + 9))

/-- Decimal value of a Unicode decimal digit (its offset in its run),
as `int` reads it. -/
def uniDigitVal (c : Char) : Nat :=
  match ndStarts.find? (fun s => decide (s ≤ c.toNat) && decide (c.toNat ≤ s + 9)) with
  | some s => c.toNat - s
  | none => 0

/-- The characters CPython's `\s` matches on a str pattern. -/
def wsCodepoints : List Nat :=
  [0x9, 0xA, 0xB, 0xC, 0xD, 0x1C, 0x1D, 0x1E, 0x1F, 0x20, 0x85, 0xA0, 0x1680,
   0x2000, 0x2001, 0x2002, 0x2003, 0x2004, 0x2005, 0x2006, 0x2007, 0x2008, 0x2009,
   0x200A, 0x2028, 0x2029, 0x202F, 0x205F, 0x3000]

/-- Unicode whitespace, CPython's `\s`. -/
def isUniSpace (c : Char) : Bool := wsCodepoints.contains c.toNat

/-- Membership of a character's codepoint in an inclusive range (for the
ASCII-only bracket classes of the pattern). -/
def inRange (lo hi : Nat) (c : Char) : Bool :=
  decide (lo ≤ c.toNat) && decide (c.toNat ≤ hi)

/-- The `%Y` group `\d\d\d\d`: exactly four Unicode decimal digits. -/
def parseYear : List Char → Option (Nat × List Char)
  | a :: b :: c :: d :: rest =>
    if isUniDigit a && isUniDigit b && isUniDigit c && isUniDigit d then
      some (1000 * uniDigitVal a + 100 * uniDigitVal b + 10 * uniDigitVal c
        + uniDigitVal d, rest)
    else none
  | _ => none

/-- The `%m` group `1[0-2]|0[1-9]|[1-9]` (ASCII-only), alternatives in
regex order. -/
def parseMonth : List Char → Option (Nat × List Char)
  | c1 :: c2 :: rest =>
    if c1 == '1' && inRange 0x30 0x32 c2 then some (10 + digitVal c2, rest)
    else if c1 == '0' && inRange 0x31 0x39 c2 then some (digitVal c2, rest)
    else if inRange 0x31 0x39 c1 then some (digitVal c1, c2 :: rest)
    else none
  | [c1] => if inRange 0x31 0x39 c1 then some (digitVal c1, []) else none
  | [] => none

/-- The `%d` group `3[0-1]|[1-2]\d|0[1-9]|[1-9]| [1-9]`: the second
character of `[1-2]\d` is any Unicode decimal digit, and the last
alternative is a literal ASCII space followed by an ASCII nonzero digit
(space-padded day; `int` ignores the leading space). -/
def parseDay : List Char → Option (Nat × List Char)
  | c1 :: c2 :: rest =>
    if c1 == '3' && inRange 0x30 0x31 c2 then some (30 + digitVal c2, rest)
    else if inRange 0x31 0x32 c1 && isUniDigit c2 then
      some (10 * digitVal c1 + uniDigitVal c2, rest)
    else if c1 == '0' && inRange 0x31 0x39 c2 then some (digitVal c2, rest)
    else if inRange 0x31 0x39 c1 then some (digitVal c1, c2 :: rest)
    else if c1 == ' ' && inRange 0x31 0x39 c2 then some (digitVal c2, rest)
    else none
  | [c1] => if inRange 0x31 0x39 c1 then some (digitVal c1, []) else none
  | [] => none

/-- The `%H` group `2[0-3]|[0-1]\d|\d`: the trailing `\d` positions are
Unicode decimal digits. -/
def parseHour : List Char → Option (Nat × List Char)
  | c1 :: c2 :: rest =>
    if c1 == '2' && inRange 0x30 0x33 c2 then some (20 + digitVal c2, rest)
    else if inRange 0x30 0x31 c1 && isUniDigit c2 then
      some (10 * digitVal c1 + uniDigitVal c2, rest)
    else if isUniDigit c1 then some (uniDigitVal c1, c2 :: rest)
    else none
  | [c1] => if isUniDigit c1 then some (uniDigitVal c1, []) else none
  | [] => none

/-- The `%M` group `[0-5]\d|\d`. -/
def parseMinute : List Char → Option (Nat × List Char)
  | c1 :: c2 :: rest =>
    if inRange 0x30 0x35 c1 && isUniDigit c2 then
      some (10 * digitVal c1 + uniDigitVal c2, rest)
    else if isUniDigit c1 then some (uniDigitVal c1, c2 :: rest)
    else none
  | [c1] => if isUniDigit c1 then some (uniDigitVal c1, []) else none
  | [] => none

/-- The `%S` group `6[0-1]|[0-5]\d|\d`. -/
def parseSecond : List Char → Option (Nat × List Char)
  | c1 :: c2 :: rest =>
    if c1 == '6' && inRange 0x30 0x31 c2 then some (60 + digitVal c2, rest)
    else if inRange 0x30 0x35 c1 && isUniDigit c2 then
      some (10 * digitVal c1 + uniDigitVal c2, rest)
    else if isUniDigit c1 then some (uniDigitVal c1, c2 :: rest)
    else none
  | [c1] => if isUniDigit c1 then some (uniDigitVal c1, []) else none
  | [] => none

/-- The `\s+` the format's space compiles to: one or more Unicode
whitespace characters, matched maximally (safe here, since the following
group starts with a digit and no digit is whitespace). -/
def parseSpaces : List Char → Option (List Char)
  | c :: rest => if isUniSpace c then some (rest.dropWhile isUniSpace) else none
  | [] => none

/-- Parse one literal character. -/
def parseLit (ch : Char) : List Char → Option (List Char)
  | c :: rest => if c = ch then some rest else none
  | [] => none

/-- The regex phase of `strptime(value, '%Y-%m-%d %H:%M:%S.%f')`: on
success, the (year, month, day, hour, minute, second) fields.  The `%f`
group `[0-9]{1,6}` is ASCII-only and, being last, must consume the rest
of the string. -/
def parseDatetimeParts (cs : List Char) : Option (Nat × Nat × Nat × Nat × Nat × Nat) := do
  let (y, r0) ← parseYear cs
  let r1 ← parseLit '-' r0
  let (mo, r2) ← parseMonth r1
  let r3 ← parseLit '-' r2
  let (d, r4) ← parseDay r3
  let r5 ← parseSpaces r4
  let (h, r6) ← parseHour r5
  let r7 ← parseLit ':' r6
  let (mi, r8) ← parseMinute r7
  let r9 ← parseLit ':' r8
  let (se, r10) ← parseSecond r9
  let r11 ← parseLit '.' r10
  if 1 ≤ r11.length && r11.length ≤ 6 && r11.all Char.isDigit then
    pure (y, mo, d, h, mi, se)
  else none

/-- Gregorian leap year, as used by `datetime`. -/
def isLeapYear (y : Nat) : Bool :=
  (y % 4 == 0 && y % 100 != 0) || y % 400 == 0

/-- Number of days in a month, as validated by the `datetime` constructor. -/
def daysInMonth (y m : Nat) : Nat :=
  if m == 2 then (if isLeapYear y then 29 else 28)
  else if m == 4 || m == 6 || m == 9 || m == 11 then 30
  else 31

/-- Holds iff `datetime.datetime.strptime(s, '%Y-%m-%d %H:%M:%S.%f')`
succeeds (does not raise `ValueError`). -/
def parsesDatetime (s : String) : Bool :=
  match parseDatetimeParts s.data with
  | none => false
  | some (y, mo, d, _h, _mi, se) =>
    decide (1 ≤ y) && decide (d ≤ daysInMonth y mo) && decide (se ≤ 59)

/-- The SQL column types emitted by `_create_table`, one constructor per
distinct SQL fragment. -/
inductive SqlType where
  | varcharNullable   -- "VARCHAR(255) NULL"
  | intType           -- "INT"
  | floatType         -- "FLOAT"
  | boolType          -- "BOOLEAN"
  | timestampType     -- "TIMESTAMP"
  | varchar255        -- "VARCHAR(255)"
  | intAutoIncPK      -- "INT AUTO_INCREMENT PRIMARY KEY" (the synthetic id column)
  deriving DecidableEq, Repr

/-- The SQL fragment each `SqlType` constructor stands for. -/
def sqlFragment : SqlType → String
  | .varcharNullable => "VARCHAR(255) NULL"
  | .intType => "INT"
  | .floatType => "FLOAT"
  | .boolType => "BOOLEAN"
  | .timestampType => "TIMESTAMP"
  | .varchar255 => "VARCHAR(255)"
  | .intAutoIncPK => "INT AUTO_INCREMENT PRIMARY KEY"

/-- The type-mapping branch of `_create_table`, in the source's branch
order: `None` check, then `isinstance(value, (int, float))` (which
booleans satisfy, making the subsequent `elif isinstance(value, bool)`
branch unreachable), then the dead boolean branch, then strings (with the
timestamp heuristic for time-ish column names), then the fallback. -/
def inferType (col : String) (v : Value) : SqlType :=
  match v with
  | .vnull => .varcharNullable
  | v =>
    if isinstanceIntOrFloat v then
      if isinstanceInt v then .intType else .floatType
    else if isinstanceBool v then .boolType
    else
      match v with
      | .vstr s =>
        if containsTimeWord col then
          if parsesDatetime s then .timestampType else .varchar255
        else .varchar255
      | _ => .varchar255

/-- The `columns_sql` loop of `_create_table`: one `(name, type)` pair per
key of the sample record, in insertion order (`sample_data[col]` looks
the value up by key). -/
def columnsSql (sample : Record) : List (String × SqlType) :=
  (recordKeys sample).map (fun c => (c, inferType c ((dictGet sample c).getD .vnull)))

/-- The full column list of the generated `CREATE TABLE` statement: the
inferred user columns followed by the synthetic auto-increment primary
key `id`. -/
def tableDdl (sample : Record) : List (String × SqlType) :=
  columnsSql sample ++ [("id", .intAutoIncPK)]

/-- The `CREATE TABLE` statement text built by `_create_table`. -/
def createTableSql (name : String) (sample : Record) : String :=
  "CREATE TABLE IF NOT EXISTS " ++ name ++ " (" ++
    String.intercalate ", "
      ((columnsSql sample).map (fun p => p.fst ++ " " ++ sqlFragment p.snd)) ++
    ", id INT AUTO_INCREMENT PRIMARY KEY)"

/-! ### The sink state machine

The `MySQLSink` object's mutable fields become `SinkState`; the database
is abstracted as an `Env` giving the outcome of each I/O operation of one
`_write_to_mysql` attempt; for the retry loop in `write`, attempt `i`
runs against `envs i`. -/

/-- The sink's mutable schema fields: `self.table_name` and
`self.columns` (both `None` until `_create_table` assigns them). -/
structure SinkState where
  table_name : Option String
  columns : Option (List String)
  deriving DecidableEq, Repr

/-- Outcome of `_connect_to_mysql`'s body: the connection succeeds and
`is_connected()` holds; the connector raises `Error` (caught, logged);
or the call returns a connection with `is_connected()` false (the
function falls through and returns `None`, which is falsy). -/
inductive ConnectOutcome where
  | connected
  | errorRaised
  | notConnected
  deriving DecidableEq, Repr

/-- Outcome of a `cursor.execute`/`executemany` + `commit` pair: success;
a `mysql.connector.Error` (caught by the surrounding `except Error`); a
`ConnectionError`; or a `TimeoutError` (the latter two are not
`mysql.connector.Error` subclasses, so they escape `_write_to_mysql` and
are handled by `write`'s own `except` clauses). -/
inductive DbOutcome where
  | ok
  | dbError
  | connError
  | timeoutError
  deriving DecidableEq, Repr

/-- The environment of one `_write_to_mysql` attempt. `now` is
`int(time.time())` when `_create_table` builds the table name. -/
structure Env where
  connect : ConnectOutcome
  createOutcome : DbOutcome
  insertOutcome : DbOutcome
  now : Nat
  deriving DecidableEq, Repr

/-- Exception classes that can escape `_write_to_mysql`:
`ConnectionError`, `TimeoutError`, or anything else (e.g. the
`IndexError` from `data[0]` on an empty batch). -/
inductive ExnClass where
  | connErr
  | timeoutErr
  | generic
  deriving DecidableEq, Repr

/-- Result of a Python call that either returns a `bool` or raises. -/
inductive PyResult where
  | ret (b : Bool)
  | exn (e : ExnClass)
  deriving DecidableEq, Repr

/-- The `print` calls of the sink, as structured entries. -/
inductive LogEntry where
  | errorConnecting                                  -- "Error connecting to MySQL: ..."
  | errorCreating                                    -- "Error creating table: ..."
  | errorWriting                                     -- "Error writing to MySQL: ..."
  | createdTable (name : String)                     -- "Created table: ..."
  | debugValues (rows : List (List Value))           -- print(values[2::])
  | insertedRecords (count : Nat) (table : String)   -- "Inserted ... records into ..."
  deriving DecidableEq, Repr

/-- Result of `_create_table` / `_write_to_mysql`: the Python result, the
updated object state, the prints, the `CREATE TABLE` column definitions
if `cursor.execute(create_table_sql)` was reached, the `executemany`
statement and row values if it was reached, and whether `_create_table`
was invoked. -/
structure StepResult where
  res : PyResult
  st : SinkState
  logs : List LogEntry
  ddl : Option (String × List (String × SqlType))
  exec : Option (String × List (List Value))
  createCalled : Bool
  deriving DecidableEq, Repr

/-- The method `_connect_to_mysql`: true on a live connection, false
otherwise (a raised `Error` is caught and logged; a non-connected
session returns the falsy `None`). -/
def connect_to_mysql (env : Env) : Bool × List LogEntry :=
  match env.connect with
  | .connected => (true, [])
  | .errorRaised => (false, [.errorConnecting])
  | .notConnected => (false, [])

/-- The method `_create_table(data)`.  After a successful connect it reads
`data[0]` (raising `IndexError` on an empty batch), assigns
`self.columns` and `self.table_name`, builds the DDL, and executes it;
a `mysql.connector.Error` from the execute is caught and turns into
`return False` — with the schema fields already assigned. -/
def create_table (st : SinkState) (env : Env) (data : List Record) : StepResult :=
  match connect_to_mysql env with
  | (false, logs) => ⟨.ret false, st, logs, none, none, true⟩
  | (true, logs) =>
    match data with
    | [] => ⟨.exn .generic, st, logs, none, none, true⟩
    | sample :: _ =>
      let cols := recordKeys sample
      let name := "kafka_" ++ toString env.now
      let st' : SinkState := ⟨some name, some cols⟩
      let ddl := tableDdl sample
      match env.createOutcome with
      | .ok => ⟨.ret true, st', logs ++ [.createdTable name], some (name, ddl), none, true⟩
      | .dbError => ⟨.ret false, st', logs ++ [.errorCreating], some (name, ddl), none, true⟩
      | .connError => ⟨.exn .connErr, st', logs, some (name, ddl), none, true⟩
      | .timeoutError => ⟨.exn .timeoutErr, st', logs, some (name, ddl), none, true⟩

/-- The `INSERT INTO ... VALUES (...)` statement text, built from the
locked column list. -/
def insertSql (table : String) (cols : List String) : String :=
  "INSERT INTO " ++ table ++ " (" ++ String.intercalate ", " cols ++
    ") VALUES (" ++ String.intercalate ", " (cols.map (fun _ => "%s")) ++ ")"

/-- One row of the batch insert:
`tuple(record.get(col, None) for col in self.columns)`. -/
def rowValues (cols : List String) (r : Record) : List Value :=
  cols.map (fun c => (dictGet r c).getD .vnull)

/-- The insert phase of `_write_to_mysql` (its `try` block): builds the
statement from the locked columns, one value row per record, prints
`values[2::]`, and runs `executemany` + `commit`.  A
`mysql.connector.Error` is caught (logged, `return False`); a
`ConnectionError`/`TimeoutError` escapes. -/
def write_insert (st : SinkState) (env : Env) (data : List Record) : StepResult :=
  let cols := st.columns.getD []
  let table := st.table_name.getD ""
  let sql := insertSql table cols
  let values := data.map (rowValues cols)
  let dbg : LogEntry := .debugValues (values.drop 2)
  match env.insertOutcome with
  | .ok => ⟨.ret true, st, [dbg, .insertedRecords values.length table], none, some (sql, values), false⟩
  | .dbError => ⟨.ret false, st, [dbg, .errorWriting], none, some (sql, values), false⟩
  | .connError => ⟨.exn .connErr, st, [dbg], none, some (sql, values), false⟩
  | .timeoutError => ⟨.exn .timeoutErr, st, [dbg], none, some (sql, values), false⟩

/-- The method `_write_to_mysql(data)`: `if not self.table_name:` run
`_create_table` first (its `False` propagates as `return False`), then
run the insert phase. -/
def write_to_mysql (st : SinkState) (env : Env) (data : List Record) : StepResult :=
  match st.table_name with
  | none =>
    let c := create_table st env data
    match c.res with
    | .ret true =>
      let i := write_insert c.st env data
      ⟨i.res, i.st, c.logs ++ i.logs, c.ddl, i.exec, true⟩
    | .ret false => ⟨.ret false, c.st, c.logs, c.ddl, none, true⟩
    | .exn e => ⟨.exn e, c.st, c.logs, c.ddl, none, true⟩
  | some _ => write_insert st env data

/-- What `write(batch)` does: return a boolean, raise
`SinkBackpressureError(retry_after, topic, partition)`, raise the final
`Exception("Error while writing to MySQL")`, or let some other exception
propagate. -/
inductive WriteOutcome where
  | returned (b : Bool)
  | backpressure (retry_after : Nat) (topic : String) (partition : Nat)
  | raisedWriteError
  | raisedOther (e : ExnClass)
  deriving DecidableEq, Repr

/-- Aggregate result of one `write` call: its outcome, the final object
state, the durations of the `time.sleep` calls in order, the number of
`_write_to_mysql` attempts made, the number of `_create_table`
invocations, and all prints. -/
structure WriteResult where
  outcome : WriteOutcome
  st : SinkState
  sleeps : List Nat
  attempts : Nat
  creates : Nat
  logs : List LogEntry
  deriving DecidableEq, Repr

/-- The `while attempts_remaining:` loop of `write`, by recursion on
`attempts_remaining` (initially 3).  A returned boolean is passed
through; a `TimeoutError` immediately raises the backpressure signal
with `retry_after=30.0`; a `ConnectionError` decrements the counter and
sleeps 3 seconds if attempts remain; when the counter hits zero the loop
exits and the final generic `Exception` is raised; any other exception
propagates uncaught. -/
def writeLoop (envs : Nat → Env) (data : List Record) (topic : String) (partition : Nat) :
    SinkState → Nat → Nat → WriteResult
  | st, _, 0 => ⟨.raisedWriteError, st, [], 0, 0, []⟩
  | st, i, n + 1 =>
    let r := write_to_mysql st (envs i) data
    let cr := if r.createCalled then 1 else 0
    match r.res with
    | .ret b => ⟨.returned b, r.st, [], 1, cr, r.logs⟩
    | .exn .timeoutErr => ⟨.backpressure 30 topic partition, r.st, [], 1, cr, r.logs⟩
    | .exn .generic => ⟨.raisedOther .generic, r.st, [], 1, cr, r.logs⟩
    | .exn .connErr =>
      if n = 0 then ⟨.raisedWriteError, r.st, [], 1, cr, r.logs⟩
      else
        let rest := writeLoop envs data topic partition r.st (i + 1) n
        ⟨rest.outcome, rest.st, 3 :: rest.sleeps, rest.attempts + 1,
          cr + rest.creates, r.logs ++ rest.logs⟩

/-- A `SinkBatch`: its topic, partition, and the record payloads
(`[item.value for item in batch]`). -/
structure Batch where
  topic : String
  partition : Nat
  data : List Record
  deriving DecidableEq, Repr

/-- The method `write(batch)`: the retry loop with
`attempts_remaining = 3`. -/
def write (envs : Nat → Env) (st : SinkState) (b : Batch) : WriteResult :=
  writeLoop envs b.data b.topic b.partition st 0 3

/-! ### Helper lemmas -/

/-- The boolean branch of the type mapping is dead code: no value is ever
assigned the boolean column type, because Python's `bool` is a subclass
of `int` and the numeric branch runs first. -/
lemma inferType_ne_boolType (c : String) (v : Value) :
    inferType c v ≠ SqlType.boolType := by
  cases v <;>
    simp only [inferType, isinstanceIntOrFloat, isinstanceInt, isinstanceBool] <;>
    first
      | decide
      | (repeat' split) <;> decide

/-- User columns never receive the synthetic primary-key type. -/
lemma inferType_ne_intAutoIncPK (c : String) (v : Value) :
    inferType c v ≠ SqlType.intAutoIncPK := by
  cases v <;>
    simp only [inferType, isinstanceIntOrFloat, isinstanceInt, isinstanceBool] <;>
    first
      | decide
      | (repeat' split) <;> decide

/-- The insert phase leaves the object state untouched and never calls
`_create_table`. -/
lemma write_insert_state (st : SinkState) (env : Env) (data : List Record) :
    (write_insert st env data).st = st ∧
    (write_insert st env data).createCalled = false := by
  unfold write_insert
  cases env.insertOutcome <;> exact ⟨rfl, rfl⟩

/-- With the table name already set, `_write_to_mysql` is exactly the
insert phase. -/
lemma write_to_mysql_locked (st : SinkState) (env : Env) (data : List Record)
    (t : String) (h : st.table_name = some t) :
    write_to_mysql st env data = write_insert st env data := by
  unfold write_to_mysql
  rw [h]

/-- In a row built for the locked columns, every position belonging to a
column the record lacks holds the null value. -/
lemma zip_rowValues_vnull (r : Record) (c : String)
    (hmiss : dictGet r c = none) :
    ∀ cols : List String, ∀ p ∈ cols.zip (rowValues cols r), p.1 = c → p.2 = Value.vnull := by
  intro cols
  induction cols with
  | nil => simp [rowValues]
  | cons a as ih =>
    intro p hp hpc
    simp only [rowValues, List.map_cons, List.zip_cons_cons, List.mem_cons] at hp
    rcases hp with h1 | h2
    · subst h1
      simp only at hpc
      subst hpc
      simp [hmiss]
    · exact ih p h2 hpc

/-- Appending a binding for a different key does not change a lookup. -/
lemma dictGet_append_single (r : Record) (k c : String) (v : Value) (h : c ≠ k) :
    dictGet (r ++ [(k, v)]) c = dictGet r c := by
  have hk : (k == c) = false := beq_eq_false_iff_ne.mpr (Ne.symm h)
  induction r with
  | nil => simp [dictGet, List.find?, hk]
  | cons a as ih =>
    by_cases hac : (a.1 == c) = true
    · simp [dictGet, List.find?, hac]
    · simp only [dictGet, List.cons_append, List.find?, Bool.not_eq_true] at *
      rw [hac] at *
      exact ih

/-- A binding for a key outside the locked column set does not change the
row sent to the database. -/
lemma rowValues_append_extra (cols : List String) (r : Record) (k : String)
    (v : Value) (hk : k ∉ cols) :
    rowValues cols (r ++ [(k, v)]) = rowValues cols r := by
  unfold rowValues
  apply List.map_congr_left
  intro c hc
  rw [dictGet_append_single]
  intro hck
  exact hk (hck ▸ hc)

/-- Once the table name is set, the retry loop never changes the object
state and never invokes `_create_table`, for any number of remaining
attempts. -/
lemma writeLoop_locked (envs : Nat → Env) (data : List Record) (topic : String)
    (partition : Nat) (t : String) :
    ∀ (n : Nat) (st : SinkState) (i : Nat), st.table_name = some t →
      (writeLoop envs data topic partition st i n).st = st ∧
      (writeLoop envs data topic partition st i n).creates = 0 := by
  intro n
  induction n with
  | zero => intro st i h; exact ⟨rfl, rfl⟩
  | succ n ih =>
    intro st i h
    have hw := write_to_mysql_locked st (envs i) data t h
    have hs := write_insert_state st (envs i) data
    simp only [writeLoop]
    rw [hw]
    rcases hres : (write_insert st (envs i) data).res with b | e
    · simp [hres, hs.1, hs.2]
    · cases e with
      | timeoutErr => simp [hres, hs.1, hs.2]
      | generic => simp [hres, hs.1, hs.2]
      | connErr =>
        by_cases hn : n = 0
        · subst hn
          simp [hres, hs.1, hs.2]
        · have hrec := ih (write_insert st (envs i) data).st (i + 1)
            (by rw [hs.1]; exact h)
          simp only [hres, hs.1, hs.2, if_neg hn]
          rw [hs.1] at hrec
          simp [hrec.1, hrec.2]

/-- The DDL's column names are the sample record's keys, in order, plus
the trailing synthetic `id` column. -/
lemma tableDdl_names (r : Record) :
    (tableDdl r).map Prod.fst = recordKeys r ++ ["id"] := by
  simp only [tableDdl, columnsSql, List.map_append, List.map_map]
  rw [show (Prod.fst ∘ fun c => (c, inferType c ((dictGet r c).getD Value.vnull))) = id from rfl]
  simp

/-- Exactly one column of the DDL carries the auto-increment primary-key
definition. -/
lemma tableDdl_one_pk (r : Record) :
    ((tableDdl r).filter (fun p => p.2 == SqlType.intAutoIncPK)).length = 1 := by
  have hnil : (columnsSql r).filter (fun p => p.2 == SqlType.intAutoIncPK) = [] := by
    apply List.filter_eq_nil_iff.mpr
    intro p hp
    simp only [columnsSql, List.mem_map] at hp
    obtain ⟨c, _, rfl⟩ := hp
    simp [inferType_ne_intAutoIncPK]
  simp [tableDdl, List.filter_append, hnil]

/-- The last column of the DDL is the synthetic primary key. -/
lemma tableDdl_last (r : Record) :
    (tableDdl r).getLast? = some ("id", SqlType.intAutoIncPK) := by
  simp [tableDdl]

/-- With no table name set, every `_write_to_mysql` attempt invokes
`_create_table`, whatever the outcome. -/
lemma write_to_mysql_uninit_createCalled (st : SinkState) (env : Env)
    (data : List Record) (h : st.table_name = none) :
    (write_to_mysql st env data).createCalled = true := by
  unfold write_to_mysql
  rw [h]
  cases hres : (create_table st env data).res with
  | ret b => cases b <;> simp [hres]
  | exn e => simp [hres]

/-- With no table name set, the retry loop invokes `_create_table` at
least once, whatever the outcomes. -/
lemma writeLoop_uninit_creates (envs : Nat → Env) (data : List Record)
    (topic : String) (partition : Nat) (st : SinkState) (i n : Nat)
    (h : st.table_name = none) (hn : n ≠ 0) :
    1 ≤ (writeLoop envs data topic partition st i n).creates := by
  obtain ⟨m, rfl⟩ : ∃ m, n = m + 1 :=
    ⟨n - 1, (Nat.succ_pred_eq_of_pos (Nat.pos_of_ne_zero hn)).symm⟩
  have hcc := write_to_mysql_uninit_createCalled st (envs i) data h
  simp only [writeLoop, hcc]
  cases hres : (write_to_mysql st (envs i) data).res with
  | ret b => simp [hres, hcc]
  | exn e =>
    cases e with
    | connErr =>
      by_cases hm : m = 0
      · simp [hres, hcc, hm]
      · simp [hres, hcc, if_neg hm]
    | timeoutErr => simp [hres, hcc]
    | generic => simp [hres, hcc]

/-- When `_connect_to_mysql` does not come back with a live connection,
`write` returns `False` and the object state is completely unchanged. -/
lemma write_connect_failure (envs : Nat → Env) (st : SinkState) (b : Batch)
    (hst : st.table_name = none)
    (hcF : (envs 0).connect ≠ ConnectOutcome.connected) :
    (write envs st b).outcome = WriteOutcome.returned false ∧
    (write envs st b).st = st := by
  cases hc : (envs 0).connect with
  | connected => exact absurd hc hcF
  | errorRaised =>
    have hwm : write_to_mysql st (envs 0) b.data =
        ⟨PyResult.ret false, st, [LogEntry.errorConnecting], none, none, true⟩ := by
      unfold write_to_mysql create_table connect_to_mysql
      rw [hst, hc]
    simp [write, writeLoop, hwm]
  | notConnected =>
    have hwm : write_to_mysql st (envs 0) b.data =
        ⟨PyResult.ret false, st, [], none, none, true⟩ := by
      unfold write_to_mysql create_table connect_to_mysql
      rw [hst, hc]
    simp [write, writeLoop, hwm]

/-! ### The claims -/

/-- C1: the claim says a first record whose sampled value is boolean gets
the boolean SQL type, never integer, because the boolean check precedes
the numeric check.  In the source the numeric check runs first and
Python's `bool` is a subclass of `int` (`isinstance(True, (int, float))`
holds), so a boolean sample is mapped to `INT` and the
`elif isinstance(value, bool)` branch is unreachable: no value ever
receives `BOOLEAN`. -/
theorem C1_boolean_sampled_as_int :
    inferType "enabled" (Value.vbool true) = SqlType.intType ∧
    ∀ (c : String) (v : Value), inferType c v ≠ SqlType.boolType :=
  ⟨rfl, inferType_ne_boolType⟩

/-- C2: if the underlying write attempt raises a timeout-class error,
`write` performs no local retry (one attempt, no sleeps) and raises the
backpressure signal with retry-after exactly 30 and the batch's own
topic and partition. -/
theorem C2_timeout_backpressure (envs : Nat → Env) (st : SinkState) (b : Batch)
    (h : (write_to_mysql st (envs 0) b.data).res = PyResult.exn ExnClass.timeoutErr) :
    (write envs st b).outcome = WriteOutcome.backpressure 30 b.topic b.partition ∧
    (write envs st b).attempts = 1 ∧
    (write envs st b).sleeps = [] := by
  simp only [write, writeLoop]
  rw [h]
  exact ⟨rfl, rfl, rfl⟩

def C2env : Env := ⟨ConnectOutcome.connected, DbOutcome.ok, DbOutcome.timeoutError, 0⟩

def C2st : SinkState := ⟨some "kafka_5", some ["a"]⟩

def C2batch : Batch := ⟨"sensor-topic", 4, [[("a", Value.vint 1)]]⟩

/-- Witness for C2 at a concrete locked sink whose insert times out. -/
theorem C2_timeout_backpressure_witness :
    (write_to_mysql C2st ((fun _ => C2env) 0) C2batch.data).res
        = PyResult.exn ExnClass.timeoutErr ∧
    ((write (fun _ => C2env) C2st C2batch).outcome
        = WriteOutcome.backpressure 30 C2batch.topic C2batch.partition ∧
      (write (fun _ => C2env) C2st C2batch).attempts = 1 ∧
      (write (fun _ => C2env) C2st C2batch).sleeps = []) :=
  ⟨rfl, C2_timeout_backpressure (fun _ => C2env) C2st C2batch rfl⟩

/-- C3: if every underlying attempt raises a connection-class error,
`write` attempts the operation exactly 3 times, sleeps a fixed 3 seconds
between consecutive attempts (two sleeps), and finally raises the
generic write-failure exception — it never returns. -/
theorem C3_connection_retry (envs : Nat → Env) (st : SinkState) (b : Batch)
    (h : ∀ (i : Nat) (s : SinkState),
      (write_to_mysql s (envs i) b.data).res = PyResult.exn ExnClass.connErr) :
    (write envs st b).outcome = WriteOutcome.raisedWriteError ∧
    (write envs st b).attempts = 3 ∧
    (write envs st b).sleeps = [3, 3] := by
  simp only [write, writeLoop]
  rw [h 0 st, h 1 _, h 2 _]
  norm_num

def C3env : Env := ⟨ConnectOutcome.connected, DbOutcome.connError, DbOutcome.connError, 0⟩

def C3batch : Batch := ⟨"orders", 1, [[("a", Value.vint 1)]]⟩

/-- Witness for C3 at a concrete environment whose every database
operation raises a connection error. -/
theorem C3_connection_retry_witness :
    (write (fun _ => C3env) ⟨none, none⟩ C3batch).outcome = WriteOutcome.raisedWriteError ∧
    (write (fun _ => C3env) ⟨none, none⟩ C3batch).attempts = 3 ∧
    (write (fun _ => C3env) ⟨none, none⟩ C3batch).sleeps = [3, 3] :=
  C3_connection_retry (fun _ => C3env) ⟨none, none⟩ C3batch
    (fun _ s => by obtain ⟨tn, cols⟩ := s; cases tn <;> rfl)

def C4env : Env := ⟨ConnectOutcome.connected, DbOutcome.dbError, DbOutcome.ok, 7⟩

def C4batch : Batch := ⟨"input-topic", 0, [[("a", Value.vint 1)]]⟩

/-- C4, counterexample to the claim as stated: with a working connection
but a failing `CREATE TABLE` execution, the first `write` reports
failure, yet the schema state is NOT left unset — `self.table_name` and
`self.columns` were assigned before the failing execute — so the next
`write` performs no schema creation at all (`creates = 0`) instead of
re-attempting inference and creation. -/
theorem C4_counterexample :
    (write (fun _ => C4env) ⟨none, none⟩ C4batch).outcome = WriteOutcome.returned false ∧
    (write (fun _ => C4env) ⟨none, none⟩ C4batch).st.table_name = some "kafka_7" ∧
    (write (fun _ => C4env)
      (write (fun _ => C4env) ⟨none, none⟩ C4batch).st C4batch).creates = 0 :=
  ⟨rfl, rfl, rfl⟩

def C4envF : Env := ⟨ConnectOutcome.errorRaised, DbOutcome.ok, DbOutcome.ok, 0⟩

/-- C4, amended: the two creation-failure modes behave differently.  If
`_connect_to_mysql` fails, `write` reports failure and the schema state
is left unset (unchanged), so the next `write`, still uninitialized,
re-attempts schema inference and creation (at least one `_create_table`
invocation).  If instead `CREATE TABLE` execution fails after a
successful connect, `write` reports failure but the table name and the
first record's key list are already assigned, so every subsequent
`write` skips schema inference and creation entirely. -/
theorem C4_amended (st : SinkState) (b : Batch) (r : Record) (rs : List Record)
    (envF envD : Nat → Env)
    (hst : st.table_name = none) (hdata : b.data = r :: rs)
    (hcF : (envF 0).connect ≠ ConnectOutcome.connected)
    (hcD : (envD 0).connect = ConnectOutcome.connected)
    (heD : (envD 0).createOutcome = DbOutcome.dbError) :
    ((write envF st b).outcome = WriteOutcome.returned false ∧
      (write envF st b).st = st ∧
      ∀ envs2 : Nat → Env, 1 ≤ (write envs2 (write envF st b).st b).creates) ∧
    ((write envD st b).outcome = WriteOutcome.returned false ∧
      (write envD st b).st.table_name = some ("kafka_" ++ toString (envD 0).now) ∧
      (write envD st b).st.columns = some (recordKeys r) ∧
      ∀ envs2 : Nat → Env, (write envs2 (write envD st b).st b).creates = 0) := by
  constructor
  · obtain ⟨ho, hs⟩ := write_connect_failure envF st b hst hcF
    refine ⟨ho, hs, fun envs2 => ?_⟩
    rw [hs]
    exact writeLoop_uninit_creates envs2 b.data b.topic b.partition st 0 3 hst (by decide)
  · have hcreate : create_table st (envD 0) b.data =
        ⟨PyResult.ret false, ⟨some ("kafka_" ++ toString (envD 0).now), some (recordKeys r)⟩,
          [LogEntry.errorCreating], some ("kafka_" ++ toString (envD 0).now, tableDdl r), none, true⟩ := by
      unfold create_table connect_to_mysql
      rw [hcD, hdata, heD]
      rfl
    have hwm : write_to_mysql st (envD 0) b.data =
        ⟨PyResult.ret false, ⟨some ("kafka_" ++ toString (envD 0).now), some (recordKeys r)⟩,
          [LogEntry.errorCreating], some ("kafka_" ++ toString (envD 0).now, tableDdl r), none, true⟩ := by
      unfold write_to_mysql
      rw [hst, hcreate]
    have hw2 : write envD st b =
        ⟨WriteOutcome.returned false,
          ⟨some ("kafka_" ++ toString (envD 0).now), some (recordKeys r)⟩,
          [], 1, 1, [LogEntry.errorCreating]⟩ := by
      unfold write writeLoop
      rw [hwm]
      rfl
    rw [hw2]
    exact ⟨rfl, rfl, rfl, fun envs2 =>
      (writeLoop_locked envs2 b.data b.topic b.partition _ 3 _ 0 rfl).2⟩

/-- Witness for the amended C4 at concrete environments exercising both
failure modes: a connection failure (schema stays unset, next write
creates again) and a DDL-execution failure (schema assigned, later
writes never create). -/
theorem C4_amended_witness :
    ((write (fun _ => C4envF) ⟨none, none⟩ C4batch).outcome = WriteOutcome.returned false ∧
      (write (fun _ => C4envF) ⟨none, none⟩ C4batch).st = ⟨none, none⟩ ∧
      ∀ envs2 : Nat → Env,
        1 ≤ (write envs2 (write (fun _ => C4envF) ⟨none, none⟩ C4batch).st C4batch).creates) ∧
    ((write (fun _ => C4env) ⟨none, none⟩ C4batch).outcome = WriteOutcome.returned false ∧
      (write (fun _ => C4env) ⟨none, none⟩ C4batch).st.table_name
          = some ("kafka_" ++ toString ((fun _ => C4env) 0).now) ∧
      (write (fun _ => C4env) ⟨none, none⟩ C4batch).st.columns
          = some (recordKeys [("a", Value.vint 1)]) ∧
      ∀ envs2 : Nat → Env,
        (write envs2 (write (fun _ => C4env) ⟨none, none⟩ C4batch).st C4batch).creates = 0) :=
  C4_amended ⟨none, none⟩ C4batch [("a", Value.vint 1)] [] (fun _ => C4envF) (fun _ => C4env)
    rfl rfl (by decide) rfl rfl

def C5env : Env := ⟨ConnectOutcome.connected, DbOutcome.ok, DbOutcome.dbError, 0⟩

/-- C5, counterexample to the claim as stated: in the schema-locked
state, an insert failing with a plain database error (neither
connection- nor timeout-class) does NOT surface to the caller of `write`
as an exception — the `except Error` branch of `_write_to_mysql` returns
`False`, and `write` returns that `False`. -/
theorem C5_counterexample :
    (write (fun _ => C5env) ⟨some "kafka_1", some ["a"]⟩
      ⟨"input-topic", 2, [[("a", Value.vint 5)]]⟩).outcome = WriteOutcome.returned false :=
  rfl

/-- C5, amended: in the schema-locked state an insert failure of a plain
database-error class is logged and not retried (a single attempt, no
sleeps), and `write` reports it by returning `False` for that call
rather than raising an exception. -/
theorem C5_amended (envs : Nat → Env) (st : SinkState) (b : Batch) (t : String)
    (hst : st.table_name = some t)
    (hins : (envs 0).insertOutcome = DbOutcome.dbError) :
    (write envs st b).outcome = WriteOutcome.returned false ∧
    (write envs st b).attempts = 1 ∧
    (write envs st b).sleeps = [] ∧
    LogEntry.errorWriting ∈ (write envs st b).logs := by
  have hwm : write_to_mysql st (envs 0) b.data = write_insert st (envs 0) b.data :=
    write_to_mysql_locked st (envs 0) b.data t hst
  have hres : (write_insert st (envs 0) b.data).res = PyResult.ret false := by
    unfold write_insert
    rw [hins]
  have hlog : LogEntry.errorWriting ∈ (write_insert st (envs 0) b.data).logs := by
    unfold write_insert
    rw [hins]
    simp
  simp only [write, writeLoop, hwm, hres]
  exact ⟨trivial, trivial, trivial, hlog⟩

/-- Witness for the amended C5 at a concrete locked sink. -/
theorem C5_amended_witness :
    (write (fun _ => C5env) ⟨some "kafka_1", some ["a"]⟩
        ⟨"input-topic", 2, [[("a", Value.vint 5)]]⟩).outcome = WriteOutcome.returned false ∧
    (write (fun _ => C5env) ⟨some "kafka_1", some ["a"]⟩
        ⟨"input-topic", 2, [[("a", Value.vint 5)]]⟩).attempts = 1 ∧
    (write (fun _ => C5env) ⟨some "kafka_1", some ["a"]⟩
        ⟨"input-topic", 2, [[("a", Value.vint 5)]]⟩).sleeps = [] ∧
    LogEntry.errorWriting ∈ (write (fun _ => C5env) ⟨some "kafka_1", some ["a"]⟩
        ⟨"input-topic", 2, [[("a", Value.vint 5)]]⟩).logs :=
  C5_amended (fun _ => C5env) ⟨some "kafka_1", some ["a"]⟩
    ⟨"input-topic", 2, [[("a", Value.vint 5)]]⟩ "kafka_1" rfl rfl

/-- C6: on a non-empty first batch (with a working connection), the
generated table's column list is exactly the first record's keys in
insertion order followed by one trailing synthetic auto-increment
primary-key column `id` — which is the last column and the only one of
its kind. -/
theorem C6_column_order (st : SinkState) (env : Env) (r : Record) (rs : List Record)
    (hst : st.table_name = none) (hc : env.connect = ConnectOutcome.connected) :
    ∃ l, (write_to_mysql st env (r :: rs)).ddl = some ("kafka_" ++ toString env.now, l) ∧
      l.map Prod.fst = recordKeys r ++ ["id"] ∧
      l.getLast? = some ("id", SqlType.intAutoIncPK) ∧
      (l.filter (fun p => p.2 == SqlType.intAutoIncPK)).length = 1 := by
  refine ⟨tableDdl r, ?_, tableDdl_names r, tableDdl_last r, tableDdl_one_pk r⟩
  unfold write_to_mysql
  rw [hst]
  unfold create_table connect_to_mysql
  rw [hc]
  cases env.createOutcome <;> simp [write_insert]

def C6env : Env := ⟨ConnectOutcome.connected, DbOutcome.ok, DbOutcome.ok, 3⟩

def C6rec : Record := [("flag", Value.vbool true), ("event_date", Value.vstr "hello")]

/-- Witness for C6 at a concrete two-column first record. -/
theorem C6_column_order_witness :
    ∃ l, (write_to_mysql ⟨none, none⟩ C6env (C6rec :: [])).ddl
        = some ("kafka_" ++ toString C6env.now, l) ∧
      l.map Prod.fst = recordKeys C6rec ++ ["id"] ∧
      l.getLast? = some ("id", SqlType.intAutoIncPK) ∧
      (l.filter (fun p => p.2 == SqlType.intAutoIncPK)).length = 1 :=
  C6_column_order ⟨none, none⟩ C6env C6rec [] rfl rfl

/-- C7: for a string-valued sample whose column name contains "time",
"date" or "timestamp" (case-insensitive), the inferred type is the
timestamp type if and only if the value parses under the fixed
`%Y-%m-%d %H:%M:%S.%f` format; when it does not parse, the inferred
type is the bounded 255-character string fallback. -/
theorem C7_timestamp_iff (col s : String) (h : containsTimeWord col = true) :
    (inferType col (Value.vstr s) = SqlType.timestampType ↔ parsesDatetime s = true) ∧
    (parsesDatetime s = false → inferType col (Value.vstr s) = SqlType.varchar255) := by
  simp only [inferType, isinstanceIntOrFloat, isinstanceBool, h]
  cases hp : parsesDatetime s <;> simp [hp]

/-- Witness for C7 at a concrete time-named column, evaluating both a
parsing and a non-parsing value. -/
theorem C7_timestamp_iff_witness :
    containsTimeWord "created_time" = true ∧
    (inferType "created_time" (Value.vstr "2024-01-02 03:04:05.123456")
        = SqlType.timestampType ↔ parsesDatetime "2024-01-02 03:04:05.123456" = true) ∧
    (parsesDatetime "not a date" = false →
      inferType "created_time" (Value.vstr "not a date") = SqlType.varchar255) :=
  ⟨by decide, (C7_timestamp_iff "created_time" "2024-01-02 03:04:05.123456" (by decide)).1,
    (C7_timestamp_iff "created_time" "not a date" (by decide)).2⟩

/-- C8: in the schema-locked state, a record missing one of the locked
columns still inserts successfully, and the row sent to the database
carries the null value at every position of the missing column. -/
theorem C8_missing_key_null (st : SinkState) (env : Env) (data : List Record)
    (t : String) (cols : List String) (r : Record) (c : String)
    (hst : st.table_name = some t) (hcols : st.columns = some cols)
    (hok : env.insertOutcome = DbOutcome.ok)
    (hr : r ∈ data) (hc : c ∈ cols) (hmiss : dictGet r c = none) :
    (write_to_mysql st env data).res = PyResult.ret true ∧
    ∃ rows, (write_to_mysql st env data).exec = some (insertSql t cols, rows) ∧
      rowValues cols r ∈ rows ∧
      ∀ p ∈ cols.zip (rowValues cols r), p.1 = c → p.2 = Value.vnull := by
  rw [write_to_mysql_locked st env data t hst]
  unfold write_insert
  rw [hst, hcols, hok]
  exact ⟨rfl, data.map (rowValues cols), rfl,
    List.mem_map_of_mem (rowValues cols) hr,
    zip_rowValues_vnull r c hmiss cols⟩

def C8env : Env := ⟨ConnectOutcome.connected, DbOutcome.ok, DbOutcome.ok, 0⟩

def C8rec : Record := [("b", Value.vint 5)]

/-- Witness for C8: locked columns `a, b`, record providing only `b`. -/
theorem C8_missing_key_null_witness :
    (write_to_mysql ⟨some "kafka_1", some ["a", "b"]⟩ C8env [C8rec]).res
        = PyResult.ret true ∧
    ∃ rows, (write_to_mysql ⟨some "kafka_1", some ["a", "b"]⟩ C8env [C8rec]).exec
        = some (insertSql "kafka_1" ["a", "b"], rows) ∧
      rowValues ["a", "b"] C8rec ∈ rows ∧
      ∀ p ∈ (["a", "b"] : List String).zip (rowValues ["a", "b"] C8rec),
        p.1 = "a" → p.2 = Value.vnull :=
  C8_missing_key_null ⟨some "kafka_1", some ["a", "b"]⟩ C8env [C8rec] "kafka_1"
    ["a", "b"] C8rec "a" rfl rfl rfl (by simp [C8rec]) (by simp) rfl

/-- C9: once the table name is set (the state reached by the first
successful schema creation), no later `write` ever invokes
`_create_table` again, and the locked schema state — table name and
column list — is unchanged by any later `write`, whatever the batch
contains. -/
theorem C9_schema_never_altered (envs : Nat → Env) (st : SinkState) (b : Batch)
    (t : String) (hst : st.table_name = some t) :
    (write envs st b).st = st ∧ (write envs st b).creates = 0 :=
  writeLoop_locked envs b.data b.topic b.partition t 3 st 0 hst

def C9st : SinkState := ⟨some "kafka_2", some ["a"]⟩

def C9batch : Batch := ⟨"events", 0, [[("different", Value.vstr "shape"), ("x", Value.vint 9)]]⟩

/-- Witness for C9 at a concrete locked sink and a batch of a different
shape. -/
theorem C9_schema_never_altered_witness :
    (write (fun _ => C8env) C9st C9batch).st = C9st ∧
    (write (fun _ => C8env) C9st C9batch).creates = 0 :=
  C9_schema_never_altered (fun _ => C8env) C9st C9batch "kafka_2" rfl

/-- C10: in the schema-locked state the INSERT statement is built from
exactly the locked columns in the locked order, every row of the batch is
projected onto those columns, and a key absent from the locked column
set contributes nothing — appending such a binding to a record leaves
its row unchanged. -/
theorem C10_insert_exactly_locked_columns (st : SinkState) (env : Env)
    (data : List Record) (t : String) (cols : List String)
    (hst : st.table_name = some t) (hcols : st.columns = some cols) :
    (write_to_mysql st env data).exec = some (insertSql t cols, data.map (rowValues cols)) ∧
    ∀ (r : Record) (k : String) (v : Value), k ∉ cols →
      rowValues cols (r ++ [(k, v)]) = rowValues cols r := by
  rw [write_to_mysql_locked st env data t hst]
  unfold write_insert
  rw [hst, hcols]
  refine ⟨?_, fun r k v hk => rowValues_append_extra cols r k v hk⟩
  cases env.insertOutcome <;> rfl

/-- Witness for C10 at a concrete locked sink, with a record carrying an
extra key `z` outside the locked columns. -/
theorem C10_insert_exactly_locked_columns_witness :
    (write_to_mysql C9st C8env [[("a", Value.vint 1), ("z", Value.vint 2)]]).exec
        = some (insertSql "kafka_2" ["a"],
            [[("a", Value.vint 1), ("z", Value.vint 2)]].map (rowValues ["a"])) ∧
    ∀ (r : Record) (k : String) (v : Value), k ∉ (["a"] : List String) →
      rowValues ["a"] (r ++ [(k, v)]) = rowValues ["a"] r :=
  C10_insert_exactly_locked_columns C9st C8env [[("a", Value.vint 1), ("z", Value.vint 2)]]
    "kafka_2" ["a"] rfl rfl

end MySQLSink
